import Mathlib

/-!
Verification of the contradiction-scoring model ("Divergence Scorer") of the
market-publication program.

The embedding translates, from the source:

* `publish.py` — `FrameworkStatus`, `ContradictionFramework`,
  `MarketIntelligenceEngine.__init__` (the static framework table) and
  `MarketIntelligenceEngine.calculate_master_divergence_index`
  (the scoring pass, lines 540-648);
* `Publish.py` — `analyze_frameworks` (lines 269-356), the legacy scoring
  pass; it is not invoked by any caller but it is code of the repository.

Python floats are modelled as exact rationals (`ℚ`); every numeric literal in
the scoring code is decimal and the claims state exact equalities, so the
rational model coincides with the source on the properties proved here.
Python's `datetime.now().isoformat()` is modelled as an explicit `now : String`
input: a call at a given instant is the function applied to that instant's
string.  A `ZeroDivisionError` escaping the scoring pass is modelled with
`Except`: the function returns the engine's framework table as mutated so far
together with either the error or the finished result.
-/

namespace Publish

/-- `class FrameworkStatus(Enum)` of `publish.py`. -/
inductive FrameworkStatus where
  | CRITICAL
  | WARNING
  | NORMAL
  deriving DecidableEq, Repr

/-- `.value` of the status enum: the string each member carries. -/
def FrameworkStatus.value : FrameworkStatus → String
  | .CRITICAL => "CRITICAL"
  | .WARNING => "WARNING"
  | .NORMAL => "NORMAL"

/-- `@dataclass class ContradictionFramework` of `publish.py`. -/
structure ContradictionFramework where
  name : String
  current_level : ℚ
  threshold : ℚ
  weight : ℚ
  status : FrameworkStatus
  implication : String
  deriving DecidableEq, Repr

/-- The engine's dict `self.contradiction_frameworks` has exactly these seven
keys, fixed in `__init__`; a structure with one field per key models it, with
`values` recovering the dict's insertion order. -/
structure FrameworkTable where
  global_vs_local : ContradictionFramework
  economic_assessment : ContradictionFramework
  credit_vs_fundamentals : ContradictionFramework
  risk_vs_activity : ContradictionFramework
  sector_intelligence : ContradictionFramework
  quantitative_regime : ContradictionFramework
  us_economic_backdrop : ContradictionFramework
  deriving DecidableEq, Repr

/-- `self.contradiction_frameworks.values()` — dict values in insertion
order. -/
def FrameworkTable.values (t : FrameworkTable) : List ContradictionFramework :=
  [t.global_vs_local, t.economic_assessment, t.credit_vs_fundamentals,
   t.risk_vs_activity, t.sector_intelligence, t.quantitative_regime,
   t.us_economic_backdrop]

/-- The framework table as built in `MarketIntelligenceEngine.__init__`
(`publish.py` lines 70-106): every `current_level` starts at `0.0`, every
status at NORMAL, and the `(threshold, weight)` pairs are fixed. -/
def initTable : FrameworkTable where
  global_vs_local :=
    { name := "Global vs Local Sentiment"
      current_level := 0.0, threshold := 100.0, weight := 0.20
      status := .NORMAL
      implication := "Global-local sentiment divergence creating arbitrage opportunities" }
  economic_assessment :=
    { name := "Economic Assessment vs Reality"
      current_level := 0.0, threshold := 50.0, weight := 0.15
      status := .NORMAL
      implication := "Economic assessments contradicting actual indicator data" }
  credit_vs_fundamentals :=
    { name := "Credit Markets vs Fundamentals"
      current_level := 0.0, threshold := 25.0, weight := 0.15
      status := .NORMAL
      implication := "Credit spread calculations showing data integrity issues" }
  risk_vs_activity :=
    { name := "Risk Assessment vs Market Activity"
      current_level := 0.0, threshold := 50.0, weight := 0.15
      status := .NORMAL
      implication := "Risk models disconnected from actual market behavior" }
  sector_intelligence :=
    { name := "Sector Sentiment Intelligence"
      current_level := 0.0, threshold := 20.0, weight := 0.10
      status := .NORMAL
      implication := "Major sector sentiment reversals requiring rotation" }
  quantitative_regime :=
    { name := "Quantitative Regime Analysis"
      current_level := 0.0, threshold := 75.0, weight := 0.15
      status := .NORMAL
      implication := "MRN regime approaching transition thresholds" }
  us_economic_backdrop :=
    { name := "US Economic Backdrop"
      current_level := 0.0, threshold := 30.0, weight := 0.10
      status := .NORMAL
      implication := "US economic indicators showing mixed signals" }

/-- The numeric inputs the scoring pass reads out of `raw_data` (after the
`.get` defaults of lines 544-545 and 578-579 have been applied by ingestion):
`global_sentiment`, `local_sentiment`, `mi_duration`, `max_duration`. -/
structure MetricSnapshot where
  global_sentiment : ℚ
  local_sentiment : ℚ
  mrn_duration : ℚ
  mrn_max_duration : ℚ
  deriving DecidableEq, Repr

/-- An exception escaping the scoring pass. -/
inductive PyError where
  | ZeroDivisionError
  deriving DecidableEq, Repr

/-- One entry of the result's `frameworks` dict (`publish.py` lines 626-631):
`level`, `threshold`, `status` (the enum's `.value` string), `implication`. -/
structure FrameworkOut where
  level : ℚ
  threshold : ℚ
  status : String
  implication : String
  deriving DecidableEq, Repr

/-- The result's `frameworks` dict, one entry per framework key. -/
structure FrameworksOut where
  global_vs_local : FrameworkOut
  economic_assessment : FrameworkOut
  credit_vs_fundamentals : FrameworkOut
  risk_vs_activity : FrameworkOut
  sector_intelligence : FrameworkOut
  quantitative_regime : FrameworkOut
  us_economic_backdrop : FrameworkOut
  deriving DecidableEq, Repr

/-- One opportunity record (`publish.py` lines 607-622). -/
structure Opportunity where
  type : String
  strategy : String
  magnitude : ℚ
  timeline : String
  confidence : String
  deriving DecidableEq, Repr

/-- The result's `summary` dict (`publish.py` lines 640-647). -/
structure Summary where
  total_contradictions : ℕ
  active_contradictions : ℕ
  global_sentiment : ℚ
  local_sentiment : ℚ
  divergence_percentage : ℚ
  deriving DecidableEq, Repr

/-- The dict returned by `calculate_master_divergence_index`
(`publish.py` lines 624-648). -/
structure AnalysisResult where
  timestamp : String
  frameworks : FrameworksOut
  master_divergence_index : ℚ
  critical_frameworks : ℕ
  system_status : String
  opportunities : List Opportunity
  summary : Summary
  deriving DecidableEq, Repr

/-- The score-accumulation of the loop at `publish.py` lines 596-599:
`total_score` starts at `0` and, for each framework in dict order whose
`current_level` exceeds its `threshold`, gains
`min(current_level / 100, 10) * weight`. -/
def master_loop (fws : List ContradictionFramework) : ℚ :=
  fws.foldl
    (fun acc fw =>
      if fw.current_level > fw.threshold then
        acc + min (fw.current_level / 100) 10 * fw.weight
      else acc)
    0

/-- The critical-count accumulation of the same loop (`publish.py`
lines 601-602): `critical_count` counts frameworks whose status is
CRITICAL. -/
def critical_loop (fws : List ContradictionFramework) : ℕ :=
  fws.foldl
    (fun acc fw => if fw.status = FrameworkStatus.CRITICAL then acc + 1 else acc)
    0

/-- A framework as serialized into the result's `frameworks` dict
(`publish.py` lines 626-631). -/
def ContradictionFramework.toOut (fw : ContradictionFramework) : FrameworkOut :=
  { level := fw.current_level
    threshold := fw.threshold
    status := fw.status.value
    implication := fw.implication }

/-- `MarketIntelligenceEngine.calculate_master_divergence_index`
(`publish.py` lines 540-648), with the engine's mutable framework table made
an explicit input/output and `datetime.now().isoformat()` the explicit `now`
input.  The pass mutates the first five frameworks, then evaluates
`(mrn_duration / max_duration) * 100`: when `max_duration = 0` Python raises
`ZeroDivisionError` there, so the model returns the table as mutated up to
that point and the error; otherwise it finishes the remaining mutations,
runs the aggregation loop and builds the result dict. -/
def calculate_master_divergence_index (tbl : FrameworkTable)
    (raw : MetricSnapshot) (now : String) :
    FrameworkTable × Except PyError AnalysisResult :=
  let global_sentiment := raw.global_sentiment
  let local_sentiment := raw.local_sentiment
  -- Framework 1: Global vs Local Sentiment
  let divergence_pct : ℚ :=
    if local_sentiment ≠ 0 then
      |(global_sentiment - local_sentiment) / local_sentiment * 100|
    else 6000
  let tbl := { tbl with global_vs_local :=
    { tbl.global_vs_local with
        current_level := divergence_pct
        status :=
          if divergence_pct > 1000 then .CRITICAL
          else if divergence_pct > 100 then .WARNING
          else .NORMAL } }
  -- Framework 2: Economic Assessment
  let tbl := { tbl with economic_assessment :=
    { tbl.economic_assessment with current_level := 75.0, status := .CRITICAL } }
  -- Framework 3: Credit Data Integrity
  let tbl := { tbl with credit_vs_fundamentals :=
    { tbl.credit_vs_fundamentals with current_level := 126.0, status := .CRITICAL } }
  -- Framework 4: Risk vs Activity
  let tbl := { tbl with risk_vs_activity :=
    { tbl.risk_vs_activity with current_level := 100.0, status := .CRITICAL } }
  -- Framework 5: Sector Intelligence
  let max_decline : ℚ := 114.3
  let tbl := { tbl with sector_intelligence :=
    { tbl.sector_intelligence with current_level := max_decline, status := .CRITICAL } }
  -- Framework 6: MRN Regime — `(mrn_duration / max_duration) * 100` raises
  -- ZeroDivisionError when max_duration == 0.
  if raw.mrn_max_duration = 0 then
    (tbl, .error .ZeroDivisionError)
  else
    let duration_pct : ℚ := raw.mrn_duration / raw.mrn_max_duration * 100
    let tbl := { tbl with quantitative_regime :=
      { tbl.quantitative_regime with
          current_level := duration_pct
          status := if duration_pct > 60 then .WARNING else .NORMAL } }
    -- Framework 7: US Economic Backdrop
    let tbl := { tbl with us_economic_backdrop :=
      { tbl.us_economic_backdrop with current_level := 50.0, status := .WARNING } }
    -- Calculate master divergence index
    let total_score := master_loop tbl.values
    let critical_count := critical_loop tbl.values
    -- Generate opportunities
    let opportunities : List Opportunity :=
      (if divergence_pct > 1000 then
        [{ type := "Global-Local Arbitrage"
           strategy := "Long international, short local"
           magnitude := divergence_pct
           timeline := "2-8 weeks"
           confidence := "Very High" }]
      else []) ++
      (if critical_count ≥ 2 then
        [{ type := "Multi-Framework Arbitrage"
           strategy := "Position across contradictions"
           magnitude := total_score * 100
           timeline := "1-4 weeks"
           confidence := "High" }]
      else [])
    (tbl, .ok
      { timestamp := now
        frameworks :=
          { global_vs_local := tbl.global_vs_local.toOut
            economic_assessment := tbl.economic_assessment.toOut
            credit_vs_fundamentals := tbl.credit_vs_fundamentals.toOut
            risk_vs_activity := tbl.risk_vs_activity.toOut
            sector_intelligence := tbl.sector_intelligence.toOut
            quantitative_regime := tbl.quantitative_regime.toOut
            us_economic_backdrop := tbl.us_economic_backdrop.toOut }
        master_divergence_index := total_score
        critical_frameworks := critical_count
        system_status :=
          if critical_count ≥ 3 then "CRITICAL"
          else if critical_count ≥ 1 then "WARNING"
          else "NORMAL"
        opportunities := opportunities
        summary :=
          { total_contradictions := tbl.values.length
            active_contradictions :=
              (tbl.values.filter (fun fw => fw.current_level > fw.threshold)).length
            global_sentiment := global_sentiment
            local_sentiment := local_sentiment
            divergence_percentage := divergence_pct } })

/-- The scoring pass as invoked by `publish_daily`/`publish_weekly`: the
engine starts from the `__init__` table.  Only the returned dict (or the
escaping exception) is kept here. -/
def score (raw : MetricSnapshot) (now : String) : Except PyError AnalysisResult :=
  (calculate_master_divergence_index initTable raw now).2

/-- The result of a completed scoring pass; on the error branch a dummy
record is returned (every theorem using it also shows the pass really
returns `Except.ok` of this value). -/
def scoreOk (raw : MetricSnapshot) (now : String) : AnalysisResult :=
  match score raw now with
  | .ok r => r
  | .error _ =>
    { timestamp := ""
      frameworks :=
        { global_vs_local := { level := 0, threshold := 0, status := "", implication := "" }
          economic_assessment := { level := 0, threshold := 0, status := "", implication := "" }
          credit_vs_fundamentals := { level := 0, threshold := 0, status := "", implication := "" }
          risk_vs_activity := { level := 0, threshold := 0, status := "", implication := "" }
          sector_intelligence := { level := 0, threshold := 0, status := "", implication := "" }
          quantitative_regime := { level := 0, threshold := 0, status := "", implication := "" }
          us_economic_backdrop := { level := 0, threshold := 0, status := "", implication := "" } }
      master_divergence_index := 0
      critical_frameworks := 0
      system_status := ""
      opportunities := []
      summary :=
        { total_contradictions := 0, active_contradictions := 0
          global_sentiment := 0, local_sentiment := 0, divergence_percentage := 0 } }

end Publish

namespace LegacyPublish

/-!
Embedding of `analyze_frameworks` from `Publish.py` (the capital-P file,
lines 269-356) — the legacy scoring pass.  No caller in the repository
invokes it, but it is source code of the repository and one claim cites it.
Its per-framework status labels are plain strings in the source.
-/

/-- The numeric inputs `analyze_frameworks` reads out of `raw_data` (defaults
of lines 279-280 and 326 applied by ingestion); the MRN maximum duration is
hardcoded to 21 in this pass, so it is not an input. -/
structure PSnapshot where
  global_sentiment : ℚ
  local_sentiment : ℚ
  mrn_duration : ℚ
  deriving DecidableEq, Repr

/-- `analysis["contradictions"]["global_vs_local"]` (lines 287-293). -/
structure PGlobalLocal where
  level : ℚ
  status : String
  global_value : ℚ
  local_value : ℚ
  implication : String
  deriving DecidableEq, Repr

/-- `analysis["contradictions"]["economic_assessment"]` (lines 296-302). -/
structure PEconomic where
  level : ℚ
  status : String
  assessment : String
  reality_check : String
  implication : String
  deriving DecidableEq, Repr

/-- `analysis["contradictions"]["credit_vs_fundamentals"]` (lines 305-310). -/
structure PCredit where
  level : ℚ
  status : String
  data_corruption : Bool
  implication : String
  deriving DecidableEq, Repr

/-- The `major_turnarounds` sub-dict (lines 317-321). -/
structure PMajorTurnarounds where
  consumer_services : ℚ
  services : ℚ
  telecom : ℚ
  deriving DecidableEq, Repr

/-- `analysis["contradictions"]["sector_intelligence"]` (lines 314-323). -/
structure PSector where
  level : ℚ
  status : String
  major_turnarounds : PMajorTurnarounds
  implication : String
  deriving DecidableEq, Repr

/-- `analysis["contradictions"]["quantitative_regime"]` (lines 329-334). -/
structure PQuantRegime where
  level : ℚ
  status : String
  duration : String
  transition_probability : String
  deriving DecidableEq, Repr

/-- The `contradictions` dict: exactly these five keys, in insertion order. -/
structure PContradictions where
  global_vs_local : PGlobalLocal
  economic_assessment : PEconomic
  credit_vs_fundamentals : PCredit
  sector_intelligence : PSector
  quantitative_regime : PQuantRegime
  deriving DecidableEq, Repr

/-- The status strings of `analysis["contradictions"].values()`, in dict
insertion order. -/
def PContradictions.statuses (c : PContradictions) : List String :=
  [c.global_vs_local.status, c.economic_assessment.status,
   c.credit_vs_fundamentals.status, c.sector_intelligence.status,
   c.quantitative_regime.status]

/-- `analysis["summary"]` (lines 339-344). -/
structure PSummary where
  total_contradictions : ℕ
  critical_frameworks : ℕ
  system_status : String
  master_divergence_index : ℚ
  deriving DecidableEq, Repr

/-- The dict returned by `analyze_frameworks`. -/
structure PAnalysis where
  timestamp : String
  contradictions : PContradictions
  opportunities : List Publish.Opportunity
  summary : PSummary
  deriving DecidableEq, Repr

/-- `MarketPulseGenerator.analyze_frameworks` of `Publish.py`
(lines 269-356), with `datetime.now().isoformat()` the explicit `now`
input. -/
def analyze_frameworks (raw : PSnapshot) (now : String) : PAnalysis :=
  -- Framework 1: Global vs Local Sentiment
  let divergence_pct : ℚ :=
    if raw.local_sentiment ≠ 0 then
      |(raw.global_sentiment - raw.local_sentiment) / raw.local_sentiment * 100|
    else 6000
  let contradictions : PContradictions :=
    { global_vs_local :=
        { level := divergence_pct
          status := if divergence_pct > 1000 then "EXTREME" else "HIGH"
          global_value := raw.global_sentiment
          local_value := raw.local_sentiment
          implication := "Local markets massively oversold relative to global conditions" }
      -- Framework 2: Economic Assessment vs Reality
      economic_assessment :=
        { level := 75.0
          status := "HIGH"
          assessment := "Strongly Bullish"
          reality_check := "75% of indicators bearish"
          implication := "Systematic disconnect between assessment and data" }
      -- Framework 3: Credit Data Integrity
      credit_vs_fundamentals :=
        { level := 126.0
          status := "CRITICAL"
          data_corruption := true
          implication := "Credit calculations corrupted by data infrastructure failure" }
      -- Framework 4: Sector Intelligence
      sector_intelligence :=
        { level := 114.3
          status := "CRITICAL"
          major_turnarounds :=
            { consumer_services := -114.3, services := -100.0, telecom := -25.0 }
          implication := "Major sector sentiment reversals requiring rotation" }
      -- Framework 5: MRN Regime — `(mrn_duration / 21) * 100`, max hardcoded
      quantitative_regime :=
        { level := raw.mrn_duration / 21 * 100
          status := if raw.mrn_duration / 21 * 100 > 60 then "WARNING" else "NORMAL"
          duration := toString raw.mrn_duration ++ "/21 days"
          transition_probability :=
            if raw.mrn_duration / 21 * 100 > 60 then "HIGH" else "MODERATE" } }
  -- Calculate summary
  let critical_count :=
    (contradictions.statuses.filter (fun s => s = "CRITICAL")).length
  let summary : PSummary :=
    { total_contradictions := 5
      critical_frameworks := critical_count
      system_status :=
        if critical_count ≥ 2 then "CRITICAL"
        else if critical_count ≥ 1 then "WARNING"
        else "NORMAL"
      master_divergence_index := divergence_pct / 1000 }
  -- Identify opportunities
  let opportunities : List Publish.Opportunity :=
    if divergence_pct > 1000 then
      [{ type := "Global-Local Arbitrage"
         strategy := "Long international, short local"
         magnitude := divergence_pct
         timeline := "2-8 weeks"
         confidence := "Very High" }]
    else []
  { timestamp := now
    contradictions := contradictions
    opportunities := opportunities
    summary := summary }

end LegacyPublish

namespace Publish

/-! Helper definitions and lemmas shared by the claim theorems. -/

lemma score_eq_ok (raw : MetricSnapshot) (now : String)
    (h : raw.mrn_max_duration ≠ 0) :
    score raw now = Except.ok (scoreOk raw now) := by
  unfold scoreOk
  unfold score calculate_master_divergence_index
  simp [h]

/-- The specified contribution of one framework to the master index: frameworks
strictly above their threshold contribute `min(current_level / 100, 10) *
weight`, the rest contribute zero. -/
def claim_contribution (fw : ContradictionFramework) : ℚ :=
  if fw.current_level > fw.threshold then
    min (fw.current_level / 100) 10 * fw.weight
  else 0

lemma master_loop_go (fws : List ContradictionFramework) (acc : ℚ) :
    fws.foldl
      (fun acc fw =>
        if fw.current_level > fw.threshold then
          acc + min (fw.current_level / 100) 10 * fw.weight
        else acc)
      acc = acc + (fws.map claim_contribution).sum := by
  induction fws generalizing acc with
  | nil => simp
  | cons fw fws ih =>
    simp only [List.foldl_cons, List.map_cons, List.sum_cons, ih, claim_contribution]
    split_ifs <;> ring

lemma master_loop_eq_sum (fws : List ContradictionFramework) :
    master_loop fws = (fws.map claim_contribution).sum := by
  simpa using master_loop_go fws 0

/-- The result's frameworks dict as a list, in insertion order. -/
def FrameworksOut.list (f : FrameworksOut) : List FrameworkOut :=
  [f.global_vs_local, f.economic_assessment, f.credit_vs_fundamentals,
   f.risk_vs_activity, f.sector_intelligence, f.quantitative_regime,
   f.us_economic_backdrop]

/-- A result with its timestamp blanked, for comparing two results up to the
clock reading stamped into them. -/
def eraseTimestamp (r : AnalysisResult) : AnalysisResult :=
  { r with timestamp := "" }

/-- Claim C1: the claim says a scoring pass with `mrn_max_duration = 0` raises
a dedicated `DivisionGuard` error — not a generic numeric fault — and changes
no framework state visible to the caller.  The code has no `DivisionGuard`
class: evaluating the pass at such an input shows it raises Python's built-in
`ZeroDivisionError` at the `(mrn_duration / max_duration) * 100` line, after
the engine's framework table — visible to the caller through the long-lived
engine object — has already been mutated (for example, `economic_assessment`
is left at status CRITICAL, whereas the table started with it NORMAL).  No
`AnalysisResult`, partial or otherwise, is produced. -/
theorem claim_C1_division_eval :
    (calculate_master_divergence_index initTable
        ⟨6, 3, 14, 0⟩ "t").2 = Except.error PyError.ZeroDivisionError ∧
    (calculate_master_divergence_index initTable ⟨6, 3, 14, 0⟩ "t").1 ≠ initTable ∧
    (calculate_master_divergence_index initTable
        ⟨6, 3, 14, 0⟩ "t").1.economic_assessment.status = FrameworkStatus.CRITICAL ∧
    initTable.economic_assessment.status = FrameworkStatus.NORMAL := by
  refine ⟨?_, ?_, ?_, ?_⟩
  · simp [calculate_master_divergence_index]
  · intro heq
    have := congrArg (fun t => t.economic_assessment.status) heq
    simp [calculate_master_divergence_index, initTable] at this
  · simp [calculate_master_divergence_index]
  · rfl

/-- Claim C2: for `local_sentiment ≠ 0` the `global_vs_local` level equals
`|(global_sentiment - local_sentiment) / local_sentiment| * 100` exactly; for
`local_sentiment = 0` it is exactly `6000.0` regardless of `global_sentiment`;
and its status is CRITICAL when the level exceeds 1000, else WARNING when it
exceeds 100, else NORMAL. -/
theorem claim_C2_global_vs_local (raw : MetricSnapshot) (now : String)
    (h : raw.mrn_max_duration ≠ 0) :
    score raw now = Except.ok (scoreOk raw now) ∧
    (raw.local_sentiment ≠ 0 →
      (scoreOk raw now).frameworks.global_vs_local.level =
        |(raw.global_sentiment - raw.local_sentiment) / raw.local_sentiment| * 100) ∧
    (raw.local_sentiment = 0 →
      (scoreOk raw now).frameworks.global_vs_local.level = 6000.0) ∧
    (scoreOk raw now).frameworks.global_vs_local.status =
      (if (scoreOk raw now).frameworks.global_vs_local.level > 1000 then "CRITICAL"
       else if (scoreOk raw now).frameworks.global_vs_local.level > 100 then "WARNING"
       else "NORMAL") := by
  refine ⟨score_eq_ok raw now h, ?_, ?_, ?_⟩ <;>
    simp only [scoreOk, score, calculate_master_divergence_index, h,
      ContradictionFramework.toOut, FrameworkStatus.value]
  · intro hl
    simp [hl, abs_mul]
  · intro hl
    simp [hl]
    norm_num
  · by_cases hl : raw.local_sentiment = 0 <;> simp [hl] <;> split_ifs <;>
      simp [FrameworkStatus.value]

theorem claim_C2_global_vs_local_witness :
    (⟨6.0, 0.09, 14, 21⟩ : MetricSnapshot).mrn_max_duration ≠ 0 ∧
    (score ⟨6.0, 0.09, 14, 21⟩ "t" = Except.ok (scoreOk ⟨6.0, 0.09, 14, 21⟩ "t") ∧
     ((⟨6.0, 0.09, 14, 21⟩ : MetricSnapshot).local_sentiment ≠ 0 →
       (scoreOk ⟨6.0, 0.09, 14, 21⟩ "t").frameworks.global_vs_local.level =
         |((⟨6.0, 0.09, 14, 21⟩ : MetricSnapshot).global_sentiment -
             (⟨6.0, 0.09, 14, 21⟩ : MetricSnapshot).local_sentiment) /
           (⟨6.0, 0.09, 14, 21⟩ : MetricSnapshot).local_sentiment| * 100) ∧
     ((⟨6.0, 0.09, 14, 21⟩ : MetricSnapshot).local_sentiment = 0 →
       (scoreOk ⟨6.0, 0.09, 14, 21⟩ "t").frameworks.global_vs_local.level = 6000.0) ∧
     (scoreOk ⟨6.0, 0.09, 14, 21⟩ "t").frameworks.global_vs_local.status =
       (if (scoreOk ⟨6.0, 0.09, 14, 21⟩ "t").frameworks.global_vs_local.level > 1000
        then "CRITICAL"
        else if (scoreOk ⟨6.0, 0.09, 14, 21⟩ "t").frameworks.global_vs_local.level > 100
        then "WARNING"
        else "NORMAL")) :=
  ⟨by norm_num, claim_C2_global_vs_local ⟨6.0, 0.09, 14, 21⟩ "t" (by norm_num)⟩

/-- Claim C3, counterexample: the claim asserts that EVERY scoring pass grades
`system_status` CRITICAL only from `critical_frameworks ≥ 3`, WARNING from
`≥ 1` — and it cites both `publish.py` and the `analyze_frameworks` pass of
`Publish.py`.  In `analyze_frameworks` the count of CRITICAL frameworks at
this input is 2, which under the claimed rule would give WARNING, yet the pass
reports `system_status` CRITICAL (it uses a `≥ 2` cutoff). -/
theorem claim_C3_system_status_cex :
    (LegacyPublish.analyze_frameworks ⟨6.0, 0, 14⟩ "t").summary.critical_frameworks = 2 ∧
    (LegacyPublish.analyze_frameworks ⟨6.0, 0, 14⟩ "t").summary.system_status = "CRITICAL" ∧
    (LegacyPublish.analyze_frameworks ⟨6.0, 0, 14⟩ "t").summary.system_status ≠ "WARNING" := by
  refine ⟨?_, ?_, ?_⟩ <;>
    norm_num [LegacyPublish.analyze_frameworks, LegacyPublish.PContradictions.statuses] <;>
    decide

/-- Claim C3, amended: in the invoked scoring pass
(`calculate_master_divergence_index`, `publish.py`) `critical_frameworks`
equals the count of frameworks with status CRITICAL and `system_status` is
CRITICAL from `critical_frameworks ≥ 3`, WARNING from `≥ 1`, else NORMAL; the
legacy `analyze_frameworks` pass (`Publish.py`) also sets its
`critical_frameworks` to the count of CRITICAL-status frameworks, but grades
`system_status` CRITICAL already from `critical_frameworks ≥ 2`. -/
theorem claim_C3_system_status_amended (raw : MetricSnapshot)
    (p : LegacyPublish.PSnapshot) (now legacy_now : String)
    (h : raw.mrn_max_duration ≠ 0) :
    (score raw now = Except.ok (scoreOk raw now) ∧
     (scoreOk raw now).critical_frameworks =
       ((scoreOk raw now).frameworks.list.filter
         (fun fw => fw.status = "CRITICAL")).length ∧
     (scoreOk raw now).system_status =
       (if 3 ≤ (scoreOk raw now).critical_frameworks then "CRITICAL"
        else if 1 ≤ (scoreOk raw now).critical_frameworks then "WARNING"
        else "NORMAL")) ∧
    ((LegacyPublish.analyze_frameworks p legacy_now).summary.critical_frameworks =
       ((LegacyPublish.analyze_frameworks p legacy_now).contradictions.statuses.filter
         (fun s => s = "CRITICAL")).length ∧
     (LegacyPublish.analyze_frameworks p legacy_now).summary.system_status =
       (if 2 ≤ (LegacyPublish.analyze_frameworks p legacy_now).summary.critical_frameworks
        then "CRITICAL"
        else if 1 ≤ (LegacyPublish.analyze_frameworks p legacy_now).summary.critical_frameworks
        then "WARNING"
        else "NORMAL")) := by
  refine ⟨⟨score_eq_ok raw now h, ?_, ?_⟩, ?_, ?_⟩
  · simp [scoreOk, score, calculate_master_divergence_index, h,
      critical_loop, FrameworkTable.values, FrameworksOut.list,
      ContradictionFramework.toOut, FrameworkStatus.value]
    split_ifs <;> simp_all
  · simp [scoreOk, score, calculate_master_divergence_index, h,
      critical_loop, FrameworkTable.values, FrameworksOut.list,
      ContradictionFramework.toOut, FrameworkStatus.value]
  · simp [LegacyPublish.analyze_frameworks, LegacyPublish.PContradictions.statuses]
  · simp [LegacyPublish.analyze_frameworks, LegacyPublish.PContradictions.statuses]

theorem claim_C3_system_status_amended_witness :
    (⟨6.0, 0.09, 14, 21⟩ : MetricSnapshot).mrn_max_duration ≠ 0 ∧
    ((score ⟨6.0, 0.09, 14, 21⟩ "t" = Except.ok (scoreOk ⟨6.0, 0.09, 14, 21⟩ "t") ∧
      (scoreOk ⟨6.0, 0.09, 14, 21⟩ "t").critical_frameworks =
        ((scoreOk ⟨6.0, 0.09, 14, 21⟩ "t").frameworks.list.filter
          (fun fw => fw.status = "CRITICAL")).length ∧
      (scoreOk ⟨6.0, 0.09, 14, 21⟩ "t").system_status =
        (if 3 ≤ (scoreOk ⟨6.0, 0.09, 14, 21⟩ "t").critical_frameworks then "CRITICAL"
         else if 1 ≤ (scoreOk ⟨6.0, 0.09, 14, 21⟩ "t").critical_frameworks then "WARNING"
         else "NORMAL")) ∧
     ((LegacyPublish.analyze_frameworks ⟨6.0, 6.0, 14⟩ "u").summary.critical_frameworks =
        ((LegacyPublish.analyze_frameworks ⟨6.0, 6.0, 14⟩ "u").contradictions.statuses.filter
          (fun s => s = "CRITICAL")).length ∧
      (LegacyPublish.analyze_frameworks ⟨6.0, 6.0, 14⟩ "u").summary.system_status =
        (if 2 ≤ (LegacyPublish.analyze_frameworks ⟨6.0, 6.0, 14⟩ "u").summary.critical_frameworks
         then "CRITICAL"
         else if 1 ≤ (LegacyPublish.analyze_frameworks ⟨6.0, 6.0, 14⟩ "u").summary.critical_frameworks
         then "WARNING"
         else "NORMAL"))) :=
  ⟨by norm_num,
   claim_C3_system_status_amended ⟨6.0, 0.09, 14, 21⟩ ⟨6.0, 6.0, 14⟩ "t" "u" (by norm_num)⟩

/-- Claim C4: `master_divergence_index` equals the sum, over exactly the
frameworks whose current level is strictly above their threshold, of
`min(current_level / 100, 10) * weight` — with every framework at or below
its threshold contributing zero (`claim_contribution` is the per-framework
term stated by the spec; the summation runs over the engine's framework table
as it stands when the pass returns). -/
theorem claim_C4_master_index (raw : MetricSnapshot) (now : String)
    (h : raw.mrn_max_duration ≠ 0) :
    score raw now = Except.ok (scoreOk raw now) ∧
    (scoreOk raw now).master_divergence_index =
      ((calculate_master_divergence_index initTable raw now).1.values.map
        claim_contribution).sum := by
  refine ⟨score_eq_ok raw now h, ?_⟩
  rw [← master_loop_eq_sum]
  simp only [scoreOk, score, calculate_master_divergence_index, h]
  simp

theorem claim_C4_master_index_witness :
    (⟨6.0, 0.09, 14, 21⟩ : MetricSnapshot).mrn_max_duration ≠ 0 ∧
    (score ⟨6.0, 0.09, 14, 21⟩ "t" = Except.ok (scoreOk ⟨6.0, 0.09, 14, 21⟩ "t") ∧
     (scoreOk ⟨6.0, 0.09, 14, 21⟩ "t").master_divergence_index =
       ((calculate_master_divergence_index initTable
           ⟨6.0, 0.09, 14, 21⟩ "t").1.values.map claim_contribution).sum) :=
  ⟨by norm_num, claim_C4_master_index ⟨6.0, 0.09, 14, 21⟩ "t" (by norm_num)⟩

/-- Claim C5: the opportunities list is exactly the concatenation of the
"Global-Local Arbitrage" record (strategy "Long international, short local",
magnitude the `global_vs_local` level, timeline "2-8 weeks", confidence
"Very High"), present if and only if the `global_vs_local` level exceeds
1000, followed by the "Multi-Framework Arbitrage" record (strategy "Position
across contradictions", magnitude `master_divergence_index * 100`, timeline
"1-4 weeks", confidence "High"), present if and only if
`critical_frameworks ≥ 2` — and nothing else. -/
theorem claim_C5_opportunities (raw : MetricSnapshot) (now : String)
    (h : raw.mrn_max_duration ≠ 0) :
    score raw now = Except.ok (scoreOk raw now) ∧
    (scoreOk raw now).opportunities =
      (if (scoreOk raw now).frameworks.global_vs_local.level > 1000 then
        [{ type := "Global-Local Arbitrage"
           strategy := "Long international, short local"
           magnitude := (scoreOk raw now).frameworks.global_vs_local.level
           timeline := "2-8 weeks"
           confidence := "Very High" }]
      else []) ++
      (if 2 ≤ (scoreOk raw now).critical_frameworks then
        [{ type := "Multi-Framework Arbitrage"
           strategy := "Position across contradictions"
           magnitude := (scoreOk raw now).master_divergence_index * 100
           timeline := "1-4 weeks"
           confidence := "High" }]
      else []) := by
  refine ⟨score_eq_ok raw now h, ?_⟩
  simp [scoreOk, score, calculate_master_divergence_index, h,
    critical_loop, FrameworkTable.values, ContradictionFramework.toOut,
    FrameworkStatus.value]

theorem claim_C5_opportunities_witness :
    (⟨6.0, 0.09, 14, 21⟩ : MetricSnapshot).mrn_max_duration ≠ 0 ∧
    (score ⟨6.0, 0.09, 14, 21⟩ "t" = Except.ok (scoreOk ⟨6.0, 0.09, 14, 21⟩ "t") ∧
     (scoreOk ⟨6.0, 0.09, 14, 21⟩ "t").opportunities =
       (if (scoreOk ⟨6.0, 0.09, 14, 21⟩ "t").frameworks.global_vs_local.level > 1000 then
         [{ type := "Global-Local Arbitrage"
            strategy := "Long international, short local"
            magnitude := (scoreOk ⟨6.0, 0.09, 14, 21⟩ "t").frameworks.global_vs_local.level
            timeline := "2-8 weeks"
            confidence := "Very High" }]
       else []) ++
       (if 2 ≤ (scoreOk ⟨6.0, 0.09, 14, 21⟩ "t").critical_frameworks then
         [{ type := "Multi-Framework Arbitrage"
            strategy := "Position across contradictions"
            magnitude := (scoreOk ⟨6.0, 0.09, 14, 21⟩ "t").master_divergence_index * 100
            timeline := "1-4 weeks"
            confidence := "High" }]
       else [])) :=
  ⟨by norm_num, claim_C5_opportunities ⟨6.0, 0.09, 14, 21⟩ "t" (by norm_num)⟩

/-- Claim C6: for every input snapshot, `economic_assessment`,
`credit_vs_fundamentals`, `risk_vs_activity` and `sector_intelligence` have
constant levels 75.0, 126.0, 100.0 and 114.3 with status CRITICAL, and
`us_economic_backdrop` has constant level 50.0 with status WARNING — the
universal quantification over the snapshot shows none of these levels or
statuses depends on any snapshot field. -/
theorem claim_C6_constant_frameworks (raw : MetricSnapshot) (now : String)
    (h : raw.mrn_max_duration ≠ 0) :
    score raw now = Except.ok (scoreOk raw now) ∧
    (scoreOk raw now).frameworks.economic_assessment.level = 75.0 ∧
    (scoreOk raw now).frameworks.economic_assessment.status = "CRITICAL" ∧
    (scoreOk raw now).frameworks.credit_vs_fundamentals.level = 126.0 ∧
    (scoreOk raw now).frameworks.credit_vs_fundamentals.status = "CRITICAL" ∧
    (scoreOk raw now).frameworks.risk_vs_activity.level = 100.0 ∧
    (scoreOk raw now).frameworks.risk_vs_activity.status = "CRITICAL" ∧
    (scoreOk raw now).frameworks.sector_intelligence.level = 114.3 ∧
    (scoreOk raw now).frameworks.sector_intelligence.status = "CRITICAL" ∧
    (scoreOk raw now).frameworks.us_economic_backdrop.level = 50.0 ∧
    (scoreOk raw now).frameworks.us_economic_backdrop.status = "WARNING" := by
  refine ⟨score_eq_ok raw now h, ?_, ?_, ?_, ?_, ?_, ?_, ?_, ?_, ?_, ?_⟩ <;>
    simp [scoreOk, score, calculate_master_divergence_index, h,
      ContradictionFramework.toOut, FrameworkStatus.value]

theorem claim_C6_constant_frameworks_witness :
    (⟨6.0, 0.09, 14, 21⟩ : MetricSnapshot).mrn_max_duration ≠ 0 ∧
    (score ⟨6.0, 0.09, 14, 21⟩ "t" = Except.ok (scoreOk ⟨6.0, 0.09, 14, 21⟩ "t") ∧
     (scoreOk ⟨6.0, 0.09, 14, 21⟩ "t").frameworks.economic_assessment.level = 75.0 ∧
     (scoreOk ⟨6.0, 0.09, 14, 21⟩ "t").frameworks.economic_assessment.status = "CRITICAL" ∧
     (scoreOk ⟨6.0, 0.09, 14, 21⟩ "t").frameworks.credit_vs_fundamentals.level = 126.0 ∧
     (scoreOk ⟨6.0, 0.09, 14, 21⟩ "t").frameworks.credit_vs_fundamentals.status = "CRITICAL" ∧
     (scoreOk ⟨6.0, 0.09, 14, 21⟩ "t").frameworks.risk_vs_activity.level = 100.0 ∧
     (scoreOk ⟨6.0, 0.09, 14, 21⟩ "t").frameworks.risk_vs_activity.status = "CRITICAL" ∧
     (scoreOk ⟨6.0, 0.09, 14, 21⟩ "t").frameworks.sector_intelligence.level = 114.3 ∧
     (scoreOk ⟨6.0, 0.09, 14, 21⟩ "t").frameworks.sector_intelligence.status = "CRITICAL" ∧
     (scoreOk ⟨6.0, 0.09, 14, 21⟩ "t").frameworks.us_economic_backdrop.level = 50.0 ∧
     (scoreOk ⟨6.0, 0.09, 14, 21⟩ "t").frameworks.us_economic_backdrop.status = "WARNING") :=
  ⟨by norm_num, claim_C6_constant_frameworks ⟨6.0, 0.09, 14, 21⟩ "t" (by norm_num)⟩

/-- Claim C7: for `mrn_max_duration > 0` the `quantitative_regime` level
equals `(mrn_duration / mrn_max_duration) * 100` and its status is WARNING
exactly when that level exceeds 60, else NORMAL; in particular at
`mrn_duration = 14`, `mrn_max_duration = 21` the level is `200/3`
(= 66.666...) and the status is WARNING. -/
theorem claim_C7_quantitative_regime (raw : MetricSnapshot) (now : String)
    (h : 0 < raw.mrn_max_duration) :
    (score raw now = Except.ok (scoreOk raw now) ∧
     (scoreOk raw now).frameworks.quantitative_regime.level =
       raw.mrn_duration / raw.mrn_max_duration * 100 ∧
     (scoreOk raw now).frameworks.quantitative_regime.status =
       (if raw.mrn_duration / raw.mrn_max_duration * 100 > 60 then "WARNING"
        else "NORMAL")) ∧
    (scoreOk ⟨6.0, 0.09, 14, 21⟩ "t").frameworks.quantitative_regime.level = 200 / 3 ∧
    (scoreOk ⟨6.0, 0.09, 14, 21⟩ "t").frameworks.quantitative_regime.status = "WARNING" := by
  have h' : raw.mrn_max_duration ≠ 0 := ne_of_gt h
  refine ⟨⟨score_eq_ok raw now h', ?_, ?_⟩, ?_, ?_⟩
  · simp [scoreOk, score, calculate_master_divergence_index, h',
      ContradictionFramework.toOut]
  · simp [scoreOk, score, calculate_master_divergence_index, h',
      ContradictionFramework.toOut, FrameworkStatus.value]
    split_ifs <;> simp [FrameworkStatus.value]
  · norm_num [scoreOk, score, calculate_master_divergence_index,
      ContradictionFramework.toOut]
  · norm_num [scoreOk, score, calculate_master_divergence_index,
      ContradictionFramework.toOut, FrameworkStatus.value]

theorem claim_C7_quantitative_regime_witness :
    0 < (⟨6.0, 0.09, 14, 21⟩ : MetricSnapshot).mrn_max_duration ∧
    ((score ⟨6.0, 0.09, 14, 21⟩ "t" = Except.ok (scoreOk ⟨6.0, 0.09, 14, 21⟩ "t") ∧
      (scoreOk ⟨6.0, 0.09, 14, 21⟩ "t").frameworks.quantitative_regime.level =
        (⟨6.0, 0.09, 14, 21⟩ : MetricSnapshot).mrn_duration /
          (⟨6.0, 0.09, 14, 21⟩ : MetricSnapshot).mrn_max_duration * 100 ∧
      (scoreOk ⟨6.0, 0.09, 14, 21⟩ "t").frameworks.quantitative_regime.status =
        (if (⟨6.0, 0.09, 14, 21⟩ : MetricSnapshot).mrn_duration /
              (⟨6.0, 0.09, 14, 21⟩ : MetricSnapshot).mrn_max_duration * 100 > 60
         then "WARNING"
         else "NORMAL")) ∧
     (scoreOk ⟨6.0, 0.09, 14, 21⟩ "t").frameworks.quantitative_regime.level = 200 / 3 ∧
     (scoreOk ⟨6.0, 0.09, 14, 21⟩ "t").frameworks.quantitative_regime.status = "WARNING") :=
  ⟨by norm_num, claim_C7_quantitative_regime ⟨6.0, 0.09, 14, 21⟩ "t" (by norm_num)⟩

/-- Claim C8, counterexample: the claim says two scoring invocations with
identical snapshots yield bit-identical `AnalysisResult` values and that the
Scorer stamps no timestamp of its own.  The code stamps
`datetime.now().isoformat()` into the result's `timestamp` field inside the
scoring pass, so two calls at distinct instants on the same snapshot (the
second starting from the engine state the first left behind) return results
that are not identical. -/
theorem claim_C8_idempotence_cex :
    (calculate_master_divergence_index
        (calculate_master_divergence_index initTable
          ⟨6, 3, 14, 21⟩ "2025-01-02T09:00:00").1
        ⟨6, 3, 14, 21⟩ "2025-01-02T09:00:01").2 ≠
      (calculate_master_divergence_index initTable
        ⟨6, 3, 14, 21⟩ "2025-01-02T09:00:00").2 := by
  intro heq
  have := congrArg (Except.map AnalysisResult.timestamp) heq
  simp [calculate_master_divergence_index, Except.map] at this

/-- Claim C8, amended: the scoring pass stamps the current clock reading into
the result's `timestamp` field itself, so bit-identical results require
identical clock readings; apart from that field the Scorer is deterministic —
a second invocation on the identical snapshot, starting from the framework
table the first invocation left mutated, returns the same result with only
the timestamp differing. -/
theorem claim_C8_idempotence_amended (raw : MetricSnapshot) (t1 t2 : String)
    (h : raw.mrn_max_duration ≠ 0) :
    Except.map AnalysisResult.timestamp
        (calculate_master_divergence_index initTable raw t1).2 = Except.ok t1 ∧
    Except.map eraseTimestamp
        (calculate_master_divergence_index
          (calculate_master_divergence_index initTable raw t1).1 raw t2).2 =
      Except.map eraseTimestamp
        (calculate_master_divergence_index initTable raw t1).2 := by
  constructor <;>
    simp [calculate_master_divergence_index, h, eraseTimestamp, Except.map]

theorem claim_C8_idempotence_amended_witness :
    (⟨6.0, 3, 14, 21⟩ : MetricSnapshot).mrn_max_duration ≠ 0 ∧
    (Except.map AnalysisResult.timestamp
        (calculate_master_divergence_index initTable
          ⟨6.0, 3, 14, 21⟩ "2025-01-02T09:00:00").2 = Except.ok "2025-01-02T09:00:00" ∧
     Except.map eraseTimestamp
        (calculate_master_divergence_index
          (calculate_master_divergence_index initTable
            ⟨6.0, 3, 14, 21⟩ "2025-01-02T09:00:00").1
          ⟨6.0, 3, 14, 21⟩ "2025-01-02T09:00:01").2 =
      Except.map eraseTimestamp
        (calculate_master_divergence_index initTable
          ⟨6.0, 3, 14, 21⟩ "2025-01-02T09:00:00").2) :=
  ⟨by norm_num,
   claim_C8_idempotence_amended ⟨6.0, 3, 14, 21⟩
     "2025-01-02T09:00:00" "2025-01-02T09:00:01" (by norm_num)⟩

/-- Claim C9: holding every other framework fixed, the master-index
accumulation is monotonically non-decreasing in a single framework's
`current_level` on the region strictly above that framework's threshold
(the framework's weight must be non-negative, which holds for every
framework in the engine's table — the second conjunct). -/
theorem claim_C9_monotone (pre post : List ContradictionFramework)
    (fw : ContradictionFramework) (l1 l2 : ℚ)
    (hw : 0 ≤ fw.weight) (ht : fw.threshold < l1) (hl : l1 ≤ l2) :
    master_loop (pre ++ { fw with current_level := l1 } :: post) ≤
      master_loop (pre ++ { fw with current_level := l2 } :: post) ∧
    ∀ g ∈ initTable.values, 0 ≤ g.weight := by
  constructor
  · rw [master_loop_eq_sum, master_loop_eq_sum]
    simp only [List.map_append, List.sum_append, List.map_cons, List.sum_cons]
    have hc : claim_contribution { fw with current_level := l1 } ≤
        claim_contribution { fw with current_level := l2 } := by
      dsimp only [claim_contribution]
      rw [if_pos ht, if_pos (lt_of_lt_of_le ht hl)]
      exact mul_le_mul_of_nonneg_right
        (min_le_min ((div_le_div_iff_of_pos_right (by norm_num)).mpr hl) le_rfl) hw
    linarith
  · intro g hg
    simp [initTable, FrameworkTable.values] at hg
    rcases hg with rfl | rfl | rfl | rfl | rfl | rfl | rfl <;> norm_num

theorem claim_C9_monotone_witness :
    0 ≤ initTable.global_vs_local.weight ∧
    initTable.global_vs_local.threshold < (150 : ℚ) ∧
    (150 : ℚ) ≤ 200 ∧
    (master_loop ([] ++ { initTable.global_vs_local with current_level := 150 } :: []) ≤
       master_loop ([] ++ { initTable.global_vs_local with current_level := 200 } :: []) ∧
     ∀ g ∈ initTable.values, 0 ≤ g.weight) :=
  ⟨by norm_num [initTable], by norm_num [initTable], by norm_num,
   claim_C9_monotone [] [] initTable.global_vs_local 150 200
     (by norm_num [initTable]) (by norm_num [initTable]) (by norm_num)⟩

/-- Claim C10: on every snapshot on which the scoring pass completes, at
least the four constant-level frameworks are CRITICAL, so
`critical_frameworks ≥ 4`, `system_status` is always "CRITICAL", and the
opportunities list always contains a "Multi-Framework Arbitrage" record —
it is never empty. -/
theorem claim_C10_always_critical (raw : MetricSnapshot) (now : String)
    (h : raw.mrn_max_duration ≠ 0) :
    score raw now = Except.ok (scoreOk raw now) ∧
    4 ≤ (scoreOk raw now).critical_frameworks ∧
    (scoreOk raw now).system_status = "CRITICAL" ∧
    (∃ o ∈ (scoreOk raw now).opportunities, o.type = "Multi-Framework Arbitrage") ∧
    (scoreOk raw now).opportunities ≠ [] := by
  refine ⟨score_eq_ok raw now h, ?_, ?_, ?_, ?_⟩
  · simp [scoreOk, score, calculate_master_divergence_index, h,
      critical_loop, FrameworkTable.values]
    split_ifs <;> norm_num
  · simp [scoreOk, score, calculate_master_divergence_index, h,
      critical_loop, FrameworkTable.values]
    split_ifs <;> norm_num
  · simp [scoreOk, score, calculate_master_divergence_index, h,
      critical_loop, FrameworkTable.values]
    split_ifs <;> exact ⟨_, Or.inr ⟨by norm_num, rfl⟩, rfl⟩
  · simp [scoreOk, score, calculate_master_divergence_index, h,
      critical_loop, FrameworkTable.values]
    split_ifs <;> simp

theorem claim_C10_always_critical_witness :
    (⟨6.0, 0.09, 14, 21⟩ : MetricSnapshot).mrn_max_duration ≠ 0 ∧
    (score ⟨6.0, 0.09, 14, 21⟩ "t" = Except.ok (scoreOk ⟨6.0, 0.09, 14, 21⟩ "t") ∧
     4 ≤ (scoreOk ⟨6.0, 0.09, 14, 21⟩ "t").critical_frameworks ∧
     (scoreOk ⟨6.0, 0.09, 14, 21⟩ "t").system_status = "CRITICAL" ∧
     (∃ o ∈ (scoreOk ⟨6.0, 0.09, 14, 21⟩ "t").opportunities,
        o.type = "Multi-Framework Arbitrage") ∧
     (scoreOk ⟨6.0, 0.09, 14, 21⟩ "t").opportunities ≠ []) :=
  ⟨by norm_num, claim_C10_always_critical ⟨6.0, 0.09, 14, 21⟩ "t" (by norm_num)⟩

end Publish
